import Mathlib

/-!
Verification of the ByteHedge indicator-computation and trend-classification
pipeline against its specification.

The trend classifier is embedded from `src/services/market.py`
(`Market._determine_trend`).  The indicator engine in
`src/services/asset_data.py` (`AssetDataProcessor.calculate_quant_indicators`)
delegates the numeric work to the third-party `ta` library, whose code is not
part of this repository; those indicator computations are modelled from the
specification, as marked on each definition.

Python `float` values reaching the classifier are modelled as `Option ℚ`:
`some q` is a finite value, `none` is a non-finite value (NaN, e.g. a pandas
indicator cell whose lookback had insufficient history).  In Python every
ordering comparison against NaN is `False`, which `pgt`/`plt` reproduce.
-/

namespace ByteHedge

/-- Python `a > b` on floats: `False` whenever either side is non-finite. -/
def pgt : Option ℚ → Option ℚ → Bool
  | some a, some b => decide (b < a)
  | _, _ => false

/-- Python `a < b` on floats: `a < b` is `b > a`. -/
def plt (a b : Option ℚ) : Bool := pgt b a

/-- Embedding of `Market._determine_trend` (src/services/market.py lines
164-173).  The Python chained comparison `price > ema20 > ema50` means
`(price > ema20) and (ema20 > ema50)`.  The function has no finiteness
check and no raise statement: it always returns one of the four label
strings. -/
def determine_trend (price ema20 ema50 : Option ℚ) : String :=
  if pgt price ema20 && pgt ema20 ema50 then "Strong Uptrend"
  else if pgt price ema20 then "Uptrend"
  else if plt price ema20 && plt ema20 ema50 then "Strong Downtrend"
  else "Downtrend"

/-- The four trend labels of the data model. -/
def trendLabels : List String :=
  ["Strong Uptrend", "Uptrend", "Strong Downtrend", "Downtrend"]

/-- One OHLCV bar of a BarSeries (spec data model); `open_` is the open
price (`open` is a Lean keyword). -/
structure Bar where
  date : ℕ
  open_ : ℚ
  high : ℚ
  low : ℚ
  close : ℚ
  volume : ℚ
deriving Repr, DecidableEq, Inhabited

/-- A Bar augmented with the four computed indicator columns; `none` models
a NaN cell produced by insufficient lookback. -/
structure IndicatorRow where
  bar : Bar
  rsi : Option ℚ
  ema_20 : Option ℚ
  ema_50 : Option ℚ
  volatility : Option ℚ
deriving Repr, DecidableEq, Inhabited

/-- Modelled from the spec: gain part of the close-to-close delta ending at
row `i` (`ta.momentum.RSIIndicator` is a third-party library call, its code
is not under src/). -/
def deltaGain (closes : List ℚ) (i : ℕ) : ℚ :=
  max (closes.getD i 0 - closes.getD (i - 1) 0) 0

/-- Modelled from the spec: loss part of the close-to-close delta ending at
row `i`. -/
def deltaLoss (closes : List ℚ) (i : ℕ) : ℚ :=
  max (closes.getD (i - 1) 0 - closes.getD i 0) 0

/-- Modelled from the spec: seed average gain over the first 14 deltas
(rows 1 to 14). -/
def seedGain (closes : List ℚ) : ℚ :=
  ((List.range 14).map (fun k => deltaGain closes (k + 1))).sum / 14

/-- Modelled from the spec: seed average loss over the first 14 deltas. -/
def seedLoss (closes : List ℚ) : ℚ :=
  ((List.range 14).map (fun k => deltaLoss closes (k + 1))).sum / 14

/-- Modelled from the spec: Wilder running average of gains;
`avgGainFrom closes n` is the running average at row `14 + n`. -/
def avgGainFrom (closes : List ℚ) : ℕ → ℚ
  | 0 => seedGain closes
  | n + 1 => (avgGainFrom closes n * 13 + deltaGain closes (15 + n)) / 14

/-- Modelled from the spec: Wilder running average of losses. -/
def avgLossFrom (closes : List ℚ) : ℕ → ℚ
  | 0 => seedLoss closes
  | n + 1 => (avgLossFrom closes n * 13 + deltaLoss closes (15 + n)) / 14

/-- Modelled from the spec: the RSI formed from an average gain and an
average loss; when the average loss is zero the relative strength is
infinite and the index is 100. -/
def rsiValue (g l : ℚ) : ℚ :=
  if l = 0 then 100 else 100 - 100 / (1 + g / l)

/-- Modelled from the spec: the rsi column at row `i`: no value for the
first 14 rows or past the end of the series, otherwise the Wilder index of
the running averages over the prior 14 close-to-close deltas. -/
def rsiAt (closes : List ℚ) (i : ℕ) : Option ℚ :=
  if i < 14 ∨ closes.length ≤ i then none
  else some (rsiValue (avgGainFrom closes (i - 14)) (avgLossFrom closes (i - 14)))

/-- Modelled from the spec: EMA smoothing factor α = 2/(window+1)
(`ta.trend.EMAIndicator` is a third-party library call, its code is not
under src/). -/
def alphaEMA (w : ℕ) : ℚ := 2 / (w + 1)

/-- Modelled from the spec: `emaRec closes w n` is the EMA value at row
`(w - 1) + n`: seeded at row `w - 1` by the simple average of the first `w`
closes, then advanced by `ema[i] = close[i]*α + ema[i-1]*(1-α)`. -/
def emaRec (closes : List ℚ) (w : ℕ) : ℕ → ℚ
  | 0 => (closes.take w).sum / w
  | n + 1 => closes.getD (w + n) 0 * alphaEMA w + emaRec closes w n * (1 - alphaEMA w)

/-- Modelled from the spec: the ema column at row `i` for window `w`: no
value while the seed window lacks history or past the end of the series. -/
def emaAt (closes : List ℚ) (w i : ℕ) : Option ℚ :=
  if i + 1 < w ∨ closes.length ≤ i then none
  else some (emaRec closes w (i + 1 - w))

/-- Modelled from the spec: true range of bar `i`; the first bar has no
prior close, so its true range degrades to high - low
(`ta.volatility.AverageTrueRange` is a third-party library call, its code
is not under src/). -/
def trueRange (bars : List Bar) : ℕ → ℚ
  | 0 => (bars.getD 0 default).high - (bars.getD 0 default).low
  | i + 1 =>
    max ((bars.getD (i + 1) default).high - (bars.getD (i + 1) default).low)
      (max |(bars.getD (i + 1) default).high - (bars.getD i default).close|
        |(bars.getD (i + 1) default).low - (bars.getD i default).close|)

/-- Modelled from the spec: Wilder smoothing of true range over window 14;
`atrFrom bars n` is the value at row `13 + n`. -/
def atrFrom (bars : List Bar) : ℕ → ℚ
  | 0 => ((List.range 14).map (trueRange bars)).sum / 14
  | n + 1 => (atrFrom bars n * 13 + trueRange bars (14 + n)) / 14

/-- Modelled from the spec: the volatility column at row `i`: undefined
while the 14-bar lookback has insufficient history or past the end. -/
def atrAt (bars : List Bar) (i : ℕ) : Option ℚ :=
  if i < 13 ∨ bars.length ≤ i then none
  else some (atrFrom bars (i - 13))

/-- The indicator row built for bar `b` at row index `i` of the series
whose close column is `closes`. -/
def mkRow (bars : List Bar) (closes : List ℚ) (b : Bar) (i : ℕ) : IndicatorRow :=
  { bar := b
    rsi := rsiAt closes i
    ema_20 := emaAt closes 20 i
    ema_50 := emaAt closes 50 i
    volatility := atrAt bars i }

/-- Row-by-row construction of the augmented frame, carrying the row
index. -/
def augmentFrom (bars : List Bar) (closes : List ℚ) :
    List Bar → ℕ → List IndicatorRow
  | [], _ => []
  | b :: rest, i => mkRow bars closes b i :: augmentFrom bars closes rest (i + 1)

/-- Embedding of `AssetDataProcessor.calculate_quant_indicators`
(src/services/asset_data.py lines 18-27, duplicated as
`Asset.add_technical_indicators` in src/services/asset.py lines 106-115):
adds the rsi, ema_20, ema_50 and volatility columns computed from the
Close/High/Low columns.  The column values are Modelled from the spec (the
`ta` library is not code under src/), as is the InsufficientData failure on
an empty BarSeries (spec error condition for the Indicator Engine). -/
def calculate_quant_indicators (bars : List Bar) :
    Except String (List IndicatorRow) :=
  if bars.isEmpty then .error "InsufficientData"
  else .ok (augmentFrom bars (bars.map Bar.close) bars 0)

/-- A run of the indicator computation on an already-augmented frame: the
source assignments read only the Close/High/Low columns of the frame and
overwrite the four indicator columns. -/
def recalculate_quant_indicators (rows : List IndicatorRow) :
    Except String (List IndicatorRow) :=
  calculate_quant_indicators (rows.map IndicatorRow.bar)

/-- The frame produced by `fetch_market_data`: only the OHLCV columns, no
indicator columns yet. -/
def freshFrame (bars : List Bar) : List IndicatorRow :=
  bars.map (fun b =>
    { bar := b, rsi := none, ema_20 := none, ema_50 := none,
      volatility := none })

/-- Call-level effect of `calculate_quant_indicators` on its argument:
the pandas column assignments (`data[...] = ...`,
src/services/asset_data.py lines 22-25) write into the caller's frame in
place and the function returns that same frame, so the caller's frame
after the call is the returned frame; on the failure case the frame is
untouched.  Returns (result, post-state of the argument). -/
def calcIndicatorsCall (df : List IndicatorRow) :
    Except String (List IndicatorRow) × List IndicatorRow :=
  match recalculate_quant_indicators df with
  | .ok out => (.ok out, out)
  | .error e => (.error e, df)

/-- The numeric data_summary built in `analyze_stock` (src/main.py lines
96-105) from the augmented frame: number of points and the latest value of
each column. -/
structure DataSummary where
  data_points : ℕ
  latest_price : Option ℚ
  latest_rsi : Option ℚ
  latest_ema20 : Option ℚ
  latest_ema50 : Option ℚ
  latest_volatility : Option ℚ
deriving Repr, DecidableEq

/-- The data_summary fields drawn from the last row of the frame. -/
def mkSummary (df : List Bar) (rows : List IndicatorRow) : DataSummary :=
  { data_points := df.length
    latest_price := rows.getLast?.map (fun r => r.bar.close)
    latest_rsi := rows.getLast?.bind IndicatorRow.rsi
    latest_ema20 := rows.getLast?.bind IndicatorRow.ema_20
    latest_ema50 := rows.getLast?.bind IndicatorRow.ema_50
    latest_volatility := rows.getLast?.bind IndicatorRow.volatility }

/-- Outcome of one analysis request as observed from `analyze_stock`: the
except-branch error report (src/main.py lines 149-150), or a run that
reached the numeric data_summary which is then handed to the external LLM
agent. -/
inductive AnalysisOutcome where
  | errorReport (msg : String)
  | summary (s : DataSummary)
deriving Repr, DecidableEq

/-- Embedding of `analyze_stock` (src/main.py lines 88-150).  The yfinance
download inside `fetch_market_data` (src/main.py lines 21-49) is external;
its outcome enters as `fetchResult`, whose error case is the ValueError
that function raises.  Any error raised by fetching or by
`calculate_quant_indicators` is caught by the surrounding try/except,
aborting the request with an error report before the data_summary is
built; the LLM-agent step after the summary is external and not
modelled. -/
def analyze_stock (fetchResult : Except String (List Bar)) : AnalysisOutcome :=
  match fetchResult with
  | .error e => .errorReport e
  | .ok df =>
    match calculate_quant_indicators df with
    | .error e => .errorReport e
    | .ok rows => .summary (mkSummary df rows)

/-- A constant-price bar series with strictly increasing dates, used for
concrete evaluations. -/
def mkBar (d : ℕ) (c : ℚ) : Bar :=
  { date := d, open_ := c, high := c, low := c, close := c, volume := 1 }

/-- `n` constant-price bars dated `0, 1, ..., n-1`. -/
def constBars (n : ℕ) (c : ℚ) : List Bar :=
  (List.range n).map (fun d => mkBar d c)

deriving instance DecidableEq for Except

/-- A concrete freshly fetched 14-bar frame, used for concrete
evaluations. -/
def demoFresh : List IndicatorRow := freshFrame (constBars 14 1)

/-- The augmented frame the engine computes from `demoFresh`. -/
def demoOut : List IndicatorRow :=
  augmentFrom (demoFresh.map IndicatorRow.bar)
    ((demoFresh.map IndicatorRow.bar).map Bar.close)
    (demoFresh.map IndicatorRow.bar) 0

/-! ## Theorems -/

/-- Each augmented frame has exactly one row per input bar. -/
theorem augmentFrom_length (bars : List Bar) (closes : List ℚ) :
    ∀ (l : List Bar) (i : ℕ), (augmentFrom bars closes l i).length = l.length
  | [], _ => rfl
  | _ :: rest, i =>
    congrArg Nat.succ (augmentFrom_length bars closes rest (i + 1))

/-- Projecting the bar column out of an augmented frame recovers the input
bars. -/
theorem augmentFrom_map_bar (bars : List Bar) (closes : List ℚ) :
    ∀ (l : List Bar) (i : ℕ),
      (augmentFrom bars closes l i).map IndicatorRow.bar = l
  | [], _ => rfl
  | b :: rest, i => by
    simp [augmentFrom, mkRow, augmentFrom_map_bar bars closes rest (i + 1)]

/-- Delta gains are nonnegative. -/
theorem deltaGain_nonneg (closes : List ℚ) (i : ℕ) : 0 ≤ deltaGain closes i :=
  le_max_right _ _

/-- Delta losses are nonnegative. -/
theorem deltaLoss_nonneg (closes : List ℚ) (i : ℕ) : 0 ≤ deltaLoss closes i :=
  le_max_right _ _

/-- The seed average gain is nonnegative. -/
theorem seedGain_nonneg (closes : List ℚ) : 0 ≤ seedGain closes := by
  apply div_nonneg _ (by norm_num)
  apply List.sum_nonneg
  intro x hx
  simp only [List.mem_map] at hx
  obtain ⟨k, -, rfl⟩ := hx
  exact deltaGain_nonneg ..

/-- The seed average loss is nonnegative. -/
theorem seedLoss_nonneg (closes : List ℚ) : 0 ≤ seedLoss closes := by
  apply div_nonneg _ (by norm_num)
  apply List.sum_nonneg
  intro x hx
  simp only [List.mem_map] at hx
  obtain ⟨k, -, rfl⟩ := hx
  exact deltaLoss_nonneg ..

/-- Every Wilder running average of gains is nonnegative. -/
theorem avgGainFrom_nonneg (closes : List ℚ) :
    ∀ n, 0 ≤ avgGainFrom closes n
  | 0 => seedGain_nonneg closes
  | n + 1 =>
    div_nonneg
      (add_nonneg (mul_nonneg (avgGainFrom_nonneg closes n) (by norm_num))
        (deltaGain_nonneg closes (15 + n)))
      (by norm_num)

/-- Every Wilder running average of losses is nonnegative. -/
theorem avgLossFrom_nonneg (closes : List ℚ) :
    ∀ n, 0 ≤ avgLossFrom closes n
  | 0 => seedLoss_nonneg closes
  | n + 1 =>
    div_nonneg
      (add_nonneg (mul_nonneg (avgLossFrom_nonneg closes n) (by norm_num))
        (deltaLoss_nonneg closes (15 + n)))
      (by norm_num)

/-- The RSI of a nonnegative average gain and average loss lies in
[0, 100]. -/
theorem rsiValue_bounds (g l : ℚ) (hg : 0 ≤ g) (hl : 0 ≤ l) :
    0 ≤ rsiValue g l ∧ rsiValue g l ≤ 100 := by
  unfold rsiValue
  split_ifs with h
  · norm_num
  · have hl2 : 0 < l := lt_of_le_of_ne hl (Ne.symm h)
    have hrs : 0 ≤ g / l := div_nonneg hg hl
    have h1 : (0 : ℚ) < 1 + g / l := by linarith
    have h2 : 100 / (1 + g / l) ≤ 100 := by
      rw [div_le_iff₀ h1]; nlinarith
    have h3 : 0 < 100 / (1 + g / l) := div_pos (by norm_num) h1
    constructor <;> linarith

/-- C1: on finite inputs the classifier applies the ordered rules
first-match-wins: Strong Uptrend if price > ema20 and ema20 > ema50,
else Uptrend if price > ema20, else Strong Downtrend if price < ema20 and
ema20 < ema50, else Downtrend; and on (100, 100, 90) it returns
"Downtrend". -/
theorem determine_trend_ordered_rules (p e20 e50 : ℚ) :
    determine_trend (some p) (some e20) (some e50) =
      (if p > e20 ∧ e20 > e50 then "Strong Uptrend"
       else if p > e20 then "Uptrend"
       else if p < e20 ∧ e20 < e50 then "Strong Downtrend"
       else "Downtrend") ∧
    determine_trend (some 100) (some 100) (some 90) = "Downtrend" := by
  refine ⟨?_, by decide⟩
  simp only [determine_trend, pgt, plt, Bool.and_eq_true, decide_eq_true_eq,
    gt_iff_lt]

/-- C2: the classifier is total on finite triples: every finite input maps
to one of the four labels, with no unhandled case (the embedding is a
total function; the source has no raise statement and an unconditional
else branch). -/
theorem determine_trend_total (p e20 e50 : ℚ) :
    determine_trend (some p) (some e20) (some e50) ∈ trendLabels := by
  simp only [determine_trend, trendLabels]
  split_ifs <;> simp

/-- C3 counterexample: on the non-finite input (NaN, 100, 90) the
classifier does not fail with IndeterminateTrend; it returns the
TrendLabel "Downtrend", because every comparison against a non-finite
value is false and control falls through to the final else. -/
theorem determine_trend_nonfinite_cex :
    determine_trend none (some 100) (some 90) = "Downtrend" := by decide

/-- C3 amended: on any triple with a non-finite component the classifier
does not fail; comparisons involving the non-finite value are false, so it
returns "Uptrend" (only possible when ema50 is the non-finite one and
price > ema20 holds finitely) or "Downtrend". -/
theorem determine_trend_nonfinite (p e20 e50 : Option ℚ)
    (h : p = none ∨ e20 = none ∨ e50 = none) :
    determine_trend p e20 e50 = "Uptrend" ∨
    determine_trend p e20 e50 = "Downtrend" := by
  cases p <;> cases e20 <;> cases e50 <;>
    simp_all [determine_trend, pgt, plt]
  exact lt_or_le _ _

/-- C3 amended, witness: the amended statement instantiated at the
concrete non-finite input (NaN, 100, 0). -/
theorem determine_trend_nonfinite_wit :
    determine_trend none (some 100) (some 0) = "Uptrend" ∨
    determine_trend none (some 100) (some 0) = "Downtrend" :=
  determine_trend_nonfinite none (some 100) (some 0) (Or.inl rfl)

/-- C4: on the empty BarSeries the Indicator Engine fails with
InsufficientData and returns no partial IndicatorRow sequence (the result
is not an ok value carrying rows). -/
theorem calc_empty_insufficient_data :
    calculate_quant_indicators [] = .error "InsufficientData" ∧
    (calculate_quant_indicators ([] : List Bar)).isOk = false := by
  constructor <;> rfl

/-- C5: for every non-empty BarSeries (so in particular every one of
length ≥ 50) the Indicator Engine succeeds with a row sequence of the same
length carrying the same dates in the same order. -/
theorem calc_preserves_length_and_dates (bars : List Bar) (h : bars ≠ []) :
    ∃ rows, calculate_quant_indicators bars = .ok rows ∧
      rows.length = bars.length ∧
      rows.map (fun r => r.bar.date) = bars.map Bar.date := by
  refine ⟨augmentFrom bars (bars.map Bar.close) bars 0, ?_, ?_, ?_⟩
  · simp [calculate_quant_indicators, h]
  · exact augmentFrom_length ..
  · have hb := augmentFrom_map_bar bars (bars.map Bar.close) bars 0
    calc (augmentFrom bars (bars.map Bar.close) bars 0).map
          (fun r => r.bar.date)
        = ((augmentFrom bars (bars.map Bar.close) bars 0).map
            IndicatorRow.bar).map Bar.date := by
          rw [List.map_map]; rfl
      _ = bars.map Bar.date := by rw [hb]

/-- C5 witness: the statement instantiated at a concrete 2-bar series. -/
theorem calc_preserves_length_and_dates_wit :
    constBars 2 5 ≠ [] ∧
    ∃ rows, calculate_quant_indicators (constBars 2 5) = .ok rows ∧
      rows.length = (constBars 2 5).length ∧
      rows.map (fun r => r.bar.date) = (constBars 2 5).map Bar.date :=
  ⟨by decide, calc_preserves_length_and_dates (constBars 2 5) (by decide)⟩

/-- C6: the rsi column has no value on any of the first 14 rows; for
14 ≤ i < length it is defined and is the Wilder-style index of the
running average gains and losses over the prior 14 close-to-close deltas;
and every defined rsi value lies in [0, 100]. -/
theorem rsi_first14_defined_and_bounded (closes : List ℚ) (i : ℕ) :
    (i < 14 → rsiAt closes i = none) ∧
    (14 ≤ i → i < closes.length →
      rsiAt closes i =
        some (rsiValue (avgGainFrom closes (i - 14))
          (avgLossFrom closes (i - 14)))) ∧
    (∀ x, rsiAt closes i = some x → 0 ≤ x ∧ x ≤ 100) := by
  refine ⟨fun h => ?_, fun h1 h2 => ?_, fun x hx => ?_⟩
  · simp [rsiAt, h]
  · rw [rsiAt, if_neg]
    push_neg
    omega
  · unfold rsiAt at hx
    split_ifs at hx
    injection hx with hx2
    rw [← hx2]
    exact rsiValue_bounds _ _ (avgGainFrom_nonneg closes _)
      (avgLossFrom_nonneg closes _)

/-- C6 witness: the bounds conjunct instantiated at row 14 of a concrete
16-row constant close sequence, whose rsi cell is definitionally the
Wilder value of the running averages. -/
theorem rsi_first14_defined_and_bounded_wit :
    0 ≤ rsiValue (avgGainFrom (List.replicate 16 (3 : ℚ)) 0)
        (avgLossFrom (List.replicate 16 (3 : ℚ)) 0) ∧
    rsiValue (avgGainFrom (List.replicate 16 (3 : ℚ)) 0)
        (avgLossFrom (List.replicate 16 (3 : ℚ)) 0) ≤ 100 :=
  (rsi_first14_defined_and_bounded (List.replicate 16 3) 14).2.2 _ rfl

/-- C7: for windows 20 and 50 on a non-empty close sequence: rows before
the seed window has sufficient history have no ema value, the seed row
w - 1 carries the simple average of the first w closes, and every later
in-range row satisfies ema[i] = close[i]*α + ema[i-1]*(1-α) with
α = 2/(w+1). -/
theorem ema_seed_and_recurrence (closes : List ℚ) (w : ℕ)
    (hw : w = 20 ∨ w = 50) ( _hne : closes ≠ []) :
    (∀ i, i + 1 < w → emaAt closes w i = none) ∧
    (w - 1 < closes.length →
      emaAt closes w (w - 1) = some ((closes.take w).sum / w)) ∧
    (∀ i, w ≤ i → i < closes.length →
      ∃ prev, emaAt closes w (i - 1) = some prev ∧
        emaAt closes w i =
          some (closes.getD i 0 * alphaEMA w + prev * (1 - alphaEMA w))) := by
  have hw1 : 1 ≤ w := by rcases hw with h | h <;> omega
  refine ⟨fun i h => ?_, fun h => ?_, fun i hwi hlen => ?_⟩
  · simp [emaAt, h]
  · rw [emaAt, if_neg]
    · have h0 : w - 1 + 1 - w = 0 := by omega
      rw [h0, emaRec]
    · push_neg
      omega
  · refine ⟨emaRec closes w (i - w), ?_, ?_⟩
    · rw [emaAt, if_neg]
      · have h0 : i - 1 + 1 - w = i - w := by omega
        rw [h0]
      · push_neg
        omega
    · rw [emaAt, if_neg]
      · have h0 : i + 1 - w = (i - w) + 1 := by omega
        rw [h0, emaRec]
        have h1 : w + (i - w) = i := by omega
        rw [h1]
      · push_neg
        omega

/-- C7 witness: the seed conjunct instantiated for window 20 at row 19 of
a concrete 21-row close sequence. -/
theorem ema_seed_and_recurrence_wit :
    emaAt (List.replicate 21 (1 : ℚ)) 20 19 =
      some (((List.replicate 21 (1 : ℚ)).take 20).sum / 20) :=
  (ema_seed_and_recurrence (List.replicate 21 1) 20 (Or.inl rfl)
    (by decide)).2.1 (by decide)

/-- C8: the Indicator Engine is deterministic (equal inputs give equal
outputs) and idempotent: re-running the computation on the augmented
output, whose bar columns the first run left untouched, reproduces
exactly the same row sequence. -/
theorem calc_deterministic_idempotent (bars bars2 : List Bar)
    (rows : List IndicatorRow) :
    (bars = bars2 →
      calculate_quant_indicators bars = calculate_quant_indicators bars2) ∧
    (calculate_quant_indicators bars = .ok rows →
      recalculate_quant_indicators rows = .ok rows) := by
  constructor
  · intro h; rw [h]
  · intro h
    unfold recalculate_quant_indicators
    have hbar : rows.map IndicatorRow.bar = bars := by
      unfold calculate_quant_indicators at h
      split_ifs at h with hb
      injection h with h2
      subst h2
      exact augmentFrom_map_bar ..
    rw [hbar]
    exact h

/-- C8 witness: the idempotence conjunct instantiated at a concrete
single-bar series, whose augmented frame equals the fresh frame because
every indicator lookback is insufficient. -/
theorem calc_deterministic_idempotent_wit :
    calculate_quant_indicators (constBars 1 2) =
      .ok (freshFrame (constBars 1 2)) ∧
    recalculate_quant_indicators (freshFrame (constBars 1 2)) =
      .ok (freshFrame (constBars 1 2)) :=
  ⟨by decide,
    (calc_deterministic_idempotent (constBars 1 2) (constBars 1 2)
      (freshFrame (constBars 1 2))).2 (by decide)⟩

/-- C9 counterexample: on a concrete freshly fetched 14-bar frame the
caller's frame after the call differs from the frame before the call: the
pandas column assignments write the indicator columns into the caller's
frame in place (row 13 gains a volatility value), so the engine does not
leave the caller-owned input unchanged. -/
theorem calc_mutates_input_cex :
    (calcIndicatorsCall (freshFrame (constBars 14 1))).2 ≠
      freshFrame (constBars 14 1) := by decide

/-- C9 amended: the engine returns the same frame it was handed, augmented
in place: on success the caller's frame after the call is exactly the
returned row sequence (whose per-bar fields are unchanged, only the
indicator columns are rewritten), and on the failure case the frame is
untouched; it is not a separate new structure leaving the input
unchanged. -/
theorem calc_call_effect (df : List IndicatorRow) :
    (∀ rows, (calcIndicatorsCall df).1 = .ok rows →
      (calcIndicatorsCall df).2 = rows ∧
      rows.map IndicatorRow.bar = df.map IndicatorRow.bar) ∧
    (∀ e, (calcIndicatorsCall df).1 = .error e →
      (calcIndicatorsCall df).2 = df) := by
  unfold calcIndicatorsCall recalculate_quant_indicators
    calculate_quant_indicators
  split_ifs with hb
  · exact ⟨fun rows h => by simp at h, fun e h => rfl⟩
  · refine ⟨fun rows h => ?_, fun e h => by simp at h⟩
    simp only at h
    injection h with h2
    subst h2
    exact ⟨rfl, augmentFrom_map_bar ..⟩

/-- C9 amended, witness: the success conjunct instantiated at the concrete
14-bar fresh frame. -/
theorem calc_call_effect_wit :
    (calcIndicatorsCall demoFresh).2 = demoOut ∧
    demoOut.map IndicatorRow.bar = demoFresh.map IndicatorRow.bar :=
  (calc_call_effect demoFresh).1 demoOut rfl

/-- C10: if fetching fails the analysis request aborts with that error
report; if indicator computation fails it likewise aborts with that error
report; and a numeric data_summary is only ever produced when both steps
succeeded. -/
theorem analyze_stock_aborts_on_failure
    (fetchResult : Except String (List Bar)) :
    (∀ e, fetchResult = .error e →
      analyze_stock fetchResult = .errorReport e) ∧
    (∀ df e, fetchResult = .ok df →
      calculate_quant_indicators df = .error e →
      analyze_stock fetchResult = .errorReport e) ∧
    (∀ s, analyze_stock fetchResult = .summary s →
      ∃ df rows, fetchResult = .ok df ∧
        calculate_quant_indicators df = .ok rows ∧
        s = mkSummary df rows) := by
  refine ⟨fun e he => ?_, fun df e hdf hcalc => ?_, fun s hs => ?_⟩
  · rw [he]; rfl
  · subst hdf
    simp only [analyze_stock]
    rw [hcalc]
  · cases hfr : fetchResult with
    | error e => rw [hfr] at hs; simp [analyze_stock] at hs
    | ok df =>
      rw [hfr] at hs
      cases hc : calculate_quant_indicators df with
      | error e => simp [analyze_stock, hc] at hs
      | ok rows =>
        simp only [analyze_stock, hc] at hs
        injection hs with hs2
        exact ⟨df, rows, rfl, hc, hs2.symm⟩

/-- C10 witness: the indicator-failure conjunct instantiated at a fetch
that returned an empty frame, on which indicator computation fails with
InsufficientData. -/
theorem analyze_stock_aborts_on_failure_wit :
    analyze_stock (.ok []) = .errorReport "InsufficientData" :=
  (analyze_stock_aborts_on_failure (.ok [])).2.1 [] "InsufficientData" rfl rfl

end ByteHedge
